import Mathlib

/-!
Shallow embedding of the timer core of `time-log-v2`.

Timestamps are modelled as `Int` milliseconds since the epoch; the code stores
ISO-8601 strings, whose lexicographic order coincides with the chronological
order of the instants they denote, and all arithmetic in the code is done on
`Date.getTime()` millisecond values.  JavaScript `Math.floor(x / 1000)` on a
millisecond difference is `Int.fdiv · 1000`.

Source files embedded here:
* `TimeLogService` (src/unnamed/part_002)
* `ProjectService` and `MainProcessTimer`
  (src/packages/main/src/services/MainProcessTimer.ts)
* `SystemTrayModule.setupTimerListeners` / `createTrayWindow`
  (src/packages/main/src/modules/SystemTray.ts) and the tray renderer component
  (src/packages/renderer/src/components/TrayWindow.tsx)
-/

/-- A row of the `time_logs` table (interface `TimeLog` in DatabaseModule). -/
structure TimeLog where
  id : Nat
  start_time : Int
  end_time : Option Int
  duration : Option Int
  description : String
  project_id : Option Nat
  created_at : Int
  updated_at : Int
deriving DecidableEq

/-- A row of the `projects` table (interface `Project` in DatabaseModule). -/
structure Project where
  id : Nat
  name : String
  description : String
  color : String
  created_at : Int
  updated_at : Int
deriving DecidableEq

/-- The SQLite database: the two tables, plus the next `AUTOINCREMENT` rowids. -/
structure Store where
  time_logs : List TimeLog
  projects : List Project
  nextLogId : Nat
  nextProjectId : Nat
deriving DecidableEq

/-- The caller-supplied fields of `createTimeLog`
(`Omit<TimeLog, 'id' | 'created_at' | 'updated_at'>`). -/
structure TimeLogInput where
  start_time : Int
  end_time : Option Int
  duration : Option Int
  description : String
  project_id : Option Nat
deriving DecidableEq

/-- The `Partial<TimeLog>` patch accepted by `updateTimeLog`, restricted to the
columns in its `validFields` list (`updated_at` supplied by the caller is
filtered out by `validFields` and rewritten by `updateTimeLog` itself). -/
structure TimeLogUpdates where
  start_time : Option Int := none
  end_time : Option (Option Int) := none
  duration : Option (Option Int) := none
  description : Option String := none
  project_id : Option (Option Nat) := none
deriving DecidableEq

namespace TimeLogService

/-- `SELECT * FROM time_logs WHERE end_time IS NULL ORDER BY start_time DESC
LIMIT 1`: scan the open rows keeping the one with the largest `start_time`. -/
def pickLatest : Option TimeLog → List TimeLog → Option TimeLog
  | acc, [] => acc
  | none, r :: rest => pickLatest (some r) rest
  | some a, r :: rest =>
      pickLatest (some (if a.start_time < r.start_time then r else a)) rest

/-- `getActiveTimeLog`: the single open row (`end_time IS NULL`), if any. -/
def getActiveTimeLog (st : Store) : Option TimeLog :=
  pickLatest none (st.time_logs.filter (fun r => r.end_time = none))

/-- `getTimeLogById`: `SELECT * FROM time_logs WHERE id = ?`. -/
def getTimeLogById (st : Store) (id : Nat) : Option TimeLog :=
  st.time_logs.find? (fun r => r.id = id)

/-- `createTimeLog`: unconditional `INSERT` of a new row with fresh rowid and
`created_at = updated_at = now`; returns `getTimeLogById(lastInsertRowid)!`.
No validation of any kind is performed. -/
def createTimeLog (st : Store) (now : Int) (inp : TimeLogInput) :
    Store × TimeLog :=
  let row : TimeLog :=
    { id := st.nextLogId
      start_time := inp.start_time
      end_time := inp.end_time
      duration := inp.duration
      description := inp.description
      project_id := inp.project_id
      created_at := now
      updated_at := now }
  let st' : Store :=
    { st with time_logs := st.time_logs ++ [row], nextLogId := st.nextLogId + 1 }
  (st', (getTimeLogById st' row.id).getD row)

/-- `startTimer`: refuses when `getActiveTimeLog` finds an open row, otherwise
inserts a fresh open row (`end_time = duration = null`) starting now. -/
def startTimer (st : Store) (now : Int) (description : String)
    (projectId : Option Nat) : Except String (Store × TimeLog) :=
  match getActiveTimeLog st with
  | some _ =>
      .error "Timer is already running. Stop the current timer before starting a new one."
  | none =>
      .ok (createTimeLog st now
        { start_time := now, end_time := none, duration := none,
          description := description, project_id := projectId })

/-- Whether `updateTimeLog`'s filtered `updateFields` list is non-empty. -/
def hasUpdates (u : TimeLogUpdates) : Bool :=
  u.start_time.isSome || u.end_time.isSome || u.duration.isSome ||
    u.description.isSome || u.project_id.isSome

/-- The `UPDATE ... SET` clause of `updateTimeLog` applied to one row:
each supplied column is overwritten and `updated_at` is set to now. -/
def applyUpdates (u : TimeLogUpdates) (now : Int) (r : TimeLog) : TimeLog :=
  { r with
    start_time := u.start_time.getD r.start_time
    end_time := u.end_time.getD r.end_time
    duration := u.duration.getD r.duration
    description := u.description.getD r.description
    project_id := u.project_id.getD r.project_id
    updated_at := now }

/-- `updateTimeLog`: with no valid fields supplied it just re-reads the row;
otherwise it runs a single `UPDATE ... WHERE id = ?` (returning `null` when no
row matched) and re-reads the row.  It performs no overlap or range check. -/
def updateTimeLog (st : Store) (now : Int) (id : Nat) (u : TimeLogUpdates) :
    Store × Option TimeLog :=
  if hasUpdates u then
    if (getTimeLogById st id).isSome then
      let st' : Store :=
        { st with time_logs :=
            st.time_logs.map (fun r => if r.id = id then applyUpdates u now r else r) }
      (st', getTimeLogById st' id)
    else (st, none)
  else (st, getTimeLogById st id)

/-- `stopTimer`: finds the open row, closes it at `now` with
`duration = Math.floor((end - start) / 1000)`, writing `end_time`, `duration`
(and `description` when one is supplied) in one `updateTimeLog` call.
No check or clamp is applied when `now <= start_time`. -/
def stopTimer (st : Store) (now : Int) (description : Option String) :
    Except String (Store × Option TimeLog) :=
  match getActiveTimeLog st with
  | none => .error "No active timer session found"
  | some a =>
      let dur : Int := (now - a.start_time).fdiv 1000
      .ok (updateTimeLog st now a.id
        { end_time := some (some now), duration := some (some dur),
          description := description })

/-- `deleteTimeLog`: `DELETE FROM time_logs WHERE id = ?`. -/
def deleteTimeLog (st : Store) (id : Nat) : Store × Bool :=
  ({ st with time_logs := st.time_logs.filter (fun r => r.id ≠ id) },
   st.time_logs.any (fun r => r.id = id))

/-- The SQL predicate of `validateTimeLog`'s overlap query on one existing row:
`id != excludeId AND end_time IS NOT NULL AND ((start_time <= s AND end_time > s)
OR (start_time < e AND end_time >= e) OR (start_time >= s AND end_time <= e))`
(the JS passes `excludeId || -1`, so with no `excludeId` no row is excluded). -/
def overlapCond (s e : Int) (excludeId : Option Nat) (r : TimeLog) : Bool :=
  (match excludeId with | some i => r.id ≠ i | none => true) &&
  (match r.end_time with
   | none => false
   | some re =>
       (r.start_time ≤ s && re > s) || (r.start_time < e && re ≥ e) ||
       (r.start_time ≥ s && re ≤ e))

/-- `validateTimeLog`: open intervals pass; a closed proposal errors when
`start >= end`, then errors when the overlap count is positive, else true. -/
def validateTimeLog (st : Store) (startTime : Int) (endTime : Option Int)
    (excludeId : Option Nat) : Except String Bool :=
  match endTime with
  | none => .ok true
  | some e =>
      if startTime ≥ e then .error "End time must be after start time"
      else if (st.time_logs.filter (overlapCond startTime e excludeId)).length > 0 then
        .error "Time log overlaps with existing entries"
      else .ok true

end TimeLogService

namespace ProjectService

/-- `getTimeLogsCountForProject`:
`SELECT COUNT(*) FROM time_logs WHERE project_id = ?`. -/
def getTimeLogsCountForProject (st : Store) (projectId : Nat) : Nat :=
  (st.time_logs.filter (fun r => r.project_id = some projectId)).length

/-- `deleteProject`: throws when any time log references the project,
otherwise deletes the row and reports whether one was removed. -/
def deleteProject (st : Store) (id : Nat) : Except String (Store × Bool) :=
  let timeLogsCount := getTimeLogsCountForProject st id
  if timeLogsCount > 0 then
    .error "Cannot delete project: time log entries are using this project"
  else
    .ok ({ st with projects := st.projects.filter (fun p => p.id ≠ id) },
         st.projects.any (fun p => p.id = id))

end ProjectService

/-- The in-memory `TimerState` of `MainProcessTimer`. -/
structure TimerState where
  isRunning : Bool
  currentSession : Option TimeLog
  elapsedTime : Int
  description : String
  projectId : Option Nat
deriving DecidableEq

namespace MainProcessTimer

open TimeLogService

/-- The initial field values of `MainProcessTimer.state`. -/
def initialTimerState : TimerState :=
  { isRunning := false, currentSession := none, elapsedTime := 0,
    description := "", projectId := none }

/-- `getState()`: a copy of the current state. -/
def getState (e : TimerState) : TimerState := e

/-- JavaScript `a || b` on strings: the empty string is falsy. -/
def jsOr (a b : String) : String := if a = "" then b else a

/-- `stopTimer(description?)`: requires a cached `currentSession`, delegates to
`TimeLogService.stopTimer` with `description !== undefined ? description :
state.description`, resets the cached state and emits one `state-changed`
notification carrying the new `getState()` snapshot. -/
def mainStopTimer (e : TimerState) (st : Store) (now : Int)
    (description : Option String) :
    Except String (TimerState × Store × TimeLog × List TimerState) :=
  match e.currentSession with
  | none => .error "No active timer to stop"
  | some _ =>
      let finalDescription := description.getD e.description
      match TimeLogService.stopTimer st now (some finalDescription) with
      | .error msg => .error msg
      | .ok (_, none) => .error "Failed to stop timer - session not found"
      | .ok (st', some session) =>
          let e' : TimerState :=
            { e with isRunning := false, currentSession := none,
                     elapsedTime := 0, description := "" }
          .ok (e', st', session, [getState e'])

/-- `startTimer(description?, projectId?)`: first stops the current timer when
the cached state says one is running, then computes
`description || state.description || ''` and
`projectId !== undefined ? projectId : state.projectId` (reading the state
*after* the implicit stop), delegates to `TimeLogService.startTimer`, caches
the new session and emits a `state-changed` notification; any error from the
implicit stop or from the service propagates unchanged. -/
def mainStartTimer (e : TimerState) (st : Store) (now : Int)
    (description : Option String) (projectId : Option (Option Nat)) :
    Except String (TimerState × Store × TimeLog × List TimerState) :=
  let stopped : Except String (TimerState × Store × List TimerState) :=
    if e.isRunning && e.currentSession.isSome then
      match mainStopTimer e st now none with
      | .error msg => .error msg
      | .ok (e1, st1, _, ev1) => .ok (e1, st1, ev1)
    else .ok (e, st, [])
  match stopped with
  | .error msg => .error msg
  | .ok (e1, st1, ev1) =>
      let finalDescription := jsOr (jsOr (description.getD "") e1.description) ""
      let finalProjectId := projectId.getD e1.projectId
      match TimeLogService.startTimer st1 now finalDescription finalProjectId with
      | .error msg => .error msg
      | .ok (st2, session) =>
          let e2 : TimerState :=
            { e1 with isRunning := true, currentSession := some session,
                      elapsedTime := 0, description := finalDescription,
                      projectId := finalProjectId }
          .ok (e2, st2, session, ev1 ++ [getState e2])

/-- `restoreActiveSession()`: run once from the constructor.  When an open row
exists the cached state becomes `Running` over that row with
`elapsedTime = Math.floor((now - start_time) / 1000)` and one notification is
emitted; otherwise the state is left as constructed.  The store is only read
(`getActiveTimeLog` is a `SELECT`), never written. -/
def restoreActiveSession (e : TimerState) (st : Store) (now : Int) :
    TimerState × Store × List TimerState :=
  match getActiveTimeLog st with
  | some a =>
      let e' : TimerState :=
        { isRunning := true, currentSession := some a,
          elapsedTime := (now - a.start_time).fdiv 1000,
          description := a.description, projectId := a.project_id }
      (e', st, [getState e'])
  | none => (e, st, [])

/-- Engine construction (`new MainProcessTimer(...)`): the declared initial
state followed by `restoreActiveSession`. -/
def mkEngine (st : Store) (now : Int) : TimerState × Store × List TimerState :=
  restoreActiveSession initialTimerState st now

end MainProcessTimer

/-- The fields of the tray renderer's `TrayTimerState` (TrayWindow.tsx): the
part of an engine snapshot the tray popup renders. -/
structure TrayViewState where
  isRunning : Bool
  elapsedTime : Int
  description : String
deriving DecidableEq

namespace TrayMirror

open MainProcessTimer

/-- The tray popup's `useState` initializer: `Idle` defaults. -/
def trayInitialView : TrayViewState :=
  { isRunning := false, elapsedTime := 0, description := "" }

/-- The `onTimerStateUpdate` subscription handler in TrayWindow.tsx:
`setTimerState(state)` replaces the component state with the received payload
(of which the component renders `isRunning`, `elapsedTime`, `description`). -/
def trayReceiveUpdate (_cur : TrayViewState) (payload : TimerState) :
    TrayViewState :=
  { isRunning := payload.isRunning, elapsedTime := payload.elapsedTime,
    description := payload.description }

/-- The rendered fields of an engine snapshot, for comparing mirror and
engine: the tray popup shows `formatTime(elapsedTime)`, the Running/Stopped
label from `isRunning`, and the description. -/
def viewOf (s : TimerState) : TrayViewState :=
  { isRunning := s.isRunning, elapsedTime := s.elapsedTime,
    description := s.description }

/-- `SystemTrayModule.setupTimerListeners`: on every `state-changed` event the
emitted snapshot is forwarded unchanged to the tray window over
`timer-state-update`. -/
def stateChangedPayload (emitted : TimerState) : TimerState := emitted

/-- `SystemTrayModule.createTrayWindow`): on `did-finish-load` the module
sends the engine's current `getState()` snapshot to the freshly attached tray
window (`showTrayWindow` repeats this on every show). -/
def trayAttachPayload (e : TimerState) : TimerState := getState e

end TrayMirror

/-- Number of open rows (`end_time IS NULL`) — the measure of the
single-active-session invariant. -/
def activeCount (st : Store) : Nat :=
  (st.time_logs.filter (fun r => r.end_time = none)).length

/-- SQLite well-formedness of `AUTOINCREMENT`: every stored rowid is below the
next one to be assigned, so a fresh insert never collides. -/
def StoreWF (st : Store) : Prop :=
  ∀ r ∈ st.time_logs, r.id < st.nextLogId

/-- The row built by `createTimeLog` for input `inp` at instant `now`. -/
def newLogRow (st : Store) (now : Int) (inp : TimeLogInput) : TimeLog :=
  { id := st.nextLogId
    start_time := inp.start_time
    end_time := inp.end_time
    duration := inp.duration
    description := inp.description
    project_id := inp.project_id
    created_at := now
    updated_at := now }

/-- One store-level call in a `start` / `stop` / `createTimeLog` sequence. -/
inductive StoreOp where
  | start (now : Int) (d : String) (p : Option Nat)
  | stop (now : Int) (d : Option String)
  | create (now : Int) (inp : TimeLogInput)
deriving DecidableEq

/-- Run one operation; an operation that throws leaves the store unchanged. -/
def runOp (st : Store) : StoreOp → Store
  | .start now d p =>
      match TimeLogService.startTimer st now d p with
      | .ok (st', _) => st'
      | .error _ => st
  | .stop now d =>
      match TimeLogService.stopTimer st now d with
      | .ok (st', _) => st'
      | .error _ => st
  | .create now inp => (TimeLogService.createTimeLog st now inp).1

/-- Run a sequence of operations left to right. -/
def runOps (st : Store) : List StoreOp → Store
  | [] => st
  | op :: rest => runOps (runOp st op) rest

/-- Whether an operation is a `createTimeLog` call with a present `endTime`
(or not a `createTimeLog` call at all). -/
def opCreatesClosed : StoreOp → Bool
  | .create _ inp => inp.end_time.isSome
  | _ => true

/-- Two half-open `[start, end)` intervals intersect. -/
def intervalsIntersect (s1 e1 s2 e2 : Int) : Bool :=
  s1 < e2 && s2 < e1

section Lemmas

open TimeLogService MainProcessTimer

theorem pickLatest_isSome (l : List TimeLog) (a : TimeLog) :
    (pickLatest (some a) l).isSome = true := by
  induction l generalizing a with
  | nil => rfl
  | cons r rest ih => exact ih _

theorem pickLatest_none_iff (l : List TimeLog) :
    pickLatest none l = none ↔ l = [] := by
  cases l with
  | nil => simp [pickLatest]
  | cons r rest =>
      simp only [pickLatest]
      constructor
      · intro h
        have hs := pickLatest_isSome rest r
        rw [h] at hs
        simp at hs
      · intro h
        exact absurd h (List.cons_ne_nil r rest)

theorem pickLatest_mem (l : List TimeLog) (acc : Option TimeLog) (x : TimeLog)
    (h : pickLatest acc l = some x) : acc = some x ∨ x ∈ l := by
  induction l generalizing acc with
  | nil => cases acc <;> exact Or.inl h
  | cons r rest ih =>
      cases acc with
      | none =>
          rcases ih (some r) h with h1 | h1
          · have hx : r = x := Option.some_inj.mp h1
            exact Or.inr (hx ▸ List.mem_cons_self r rest)
          · exact Or.inr (List.mem_cons_of_mem r h1)
      | some a =>
          rcases ih _ h with h1 | h1
          · have := Option.some_inj.mp h1
            by_cases hc : a.start_time < r.start_time
            · simp [hc] at this
              exact Or.inr (this ▸ List.mem_cons_self r rest)
            · simp [hc] at this
              exact Or.inl (by rw [this])
          · exact Or.inr (List.mem_cons_of_mem r h1)

theorem getActiveTimeLog_none_iff (st : Store) :
    getActiveTimeLog st = none ↔
      st.time_logs.filter (fun r => r.end_time = none) = [] :=
  pickLatest_none_iff _

theorem getActiveTimeLog_mem (st : Store) (a : TimeLog)
    (h : getActiveTimeLog st = some a) :
    a ∈ st.time_logs ∧ a.end_time = none := by
  rcases pickLatest_mem _ none a h with h1 | h1
  · exact absurd h1 (by simp)
  · have h2 := List.mem_filter.mp h1
    refine ⟨h2.1, ?_⟩
    have := h2.2
    simpa using this

theorem length_filter_map_le (f : TimeLog → TimeLog) (p : TimeLog → Bool)
    (h : ∀ r, p (f r) = true → p r = true) (l : List TimeLog) :
    ((l.map f).filter p).length ≤ (l.filter p).length := by
  induction l with
  | nil => simp
  | cons r rest ih =>
      simp only [List.map_cons, List.filter_cons]
      by_cases hf : p (f r) = true
      · have hr := h r hf
        simp only [hf, hr, if_true, List.length_cons]
        omega
      · rw [if_neg hf]
        by_cases hr : p r = true
        · rw [if_pos hr]
          simp only [List.length_cons]
          omega
        · rw [if_neg hr]
          exact ih

theorem getTimeLogById_isSome (st : Store) (a : TimeLog) (ha : a ∈ st.time_logs) :
    (getTimeLogById st a.id).isSome = true := by
  rw [getTimeLogById, List.find?_isSome]
  exact ⟨a, ha, by simp⟩

theorem find?_append_fresh (l : List TimeLog) (row : TimeLog)
    (h : ∀ r ∈ l, r.id ≠ row.id) :
    (l ++ [row]).find? (fun r => r.id = row.id) = some row := by
  induction l with
  | nil => simp
  | cons r rest ih =>
      have hr : ¬(r.id = row.id) := h r (List.mem_cons_self r rest)
      rw [List.cons_append, List.find?_cons_of_neg _ (by simpa using hr)]
      exact ih (fun x hx => h x (List.mem_cons_of_mem r hx))

theorem createTimeLog_fst (st : Store) (now : Int) (inp : TimeLogInput) :
    (createTimeLog st now inp).1 =
      { st with time_logs := st.time_logs ++ [newLogRow st now inp],
                nextLogId := st.nextLogId + 1 } := rfl

theorem createTimeLog_snd (st : Store) (now : Int) (inp : TimeLogInput)
    (hwf : StoreWF st) :
    (createTimeLog st now inp).2 = newLogRow st now inp := by
  have hfresh : ∀ r ∈ st.time_logs, r.id ≠ (newLogRow st now inp).id := by
    intro r hr
    have := hwf r hr
    simp only [newLogRow]
    omega
  show ((st.time_logs ++ [newLogRow st now inp]).find?
      (fun r => r.id = (newLogRow st now inp).id)).getD (newLogRow st now inp) =
    newLogRow st now inp
  rw [find?_append_fresh _ _ hfresh]
  rfl

theorem startTimer_fails_of_active (st : Store) (now : Int) (d : String)
    (p : Option Nat) (h : (getActiveTimeLog st).isSome = true) :
    startTimer st now d p =
      .error "Timer is already running. Stop the current timer before starting a new one." := by
  obtain ⟨a, ha⟩ := Option.isSome_iff_exists.mp h
  simp [startTimer, ha]

/-- The patch `stopTimer` hands to `updateTimeLog`. -/
theorem stopTimer_ok (st : Store) (now : Int) (d : Option String) (a : TimeLog)
    (h : getActiveTimeLog st = some a) :
    ∃ st2, stopTimer st now d = .ok (st2, getTimeLogById st2 a.id) ∧
      st2.time_logs = st.time_logs.map (fun r =>
        if r.id = a.id then
          applyUpdates
            { end_time := some (some now),
              duration := some (some ((now - a.start_time).fdiv 1000)),
              description := d } now r
        else r) ∧
      st2.projects = st.projects ∧ st2.nextLogId = st.nextLogId ∧
      st2.nextProjectId = st.nextProjectId := by
  have ha := getActiveTimeLog_mem st a h
  have hex : (getTimeLogById st a.id).isSome = true := getTimeLogById_isSome st a ha.1
  refine ⟨{ st with time_logs := st.time_logs.map (fun r =>
      if r.id = a.id then
        applyUpdates
          { end_time := some (some now),
            duration := some (some ((now - a.start_time).fdiv 1000)),
            description := d } now r
      else r) }, ?_, rfl, rfl, rfl, rfl⟩
  simp only [stopTimer, h]
  simp only [updateTimeLog, hasUpdates]
  rw [if_pos (by simp), if_pos hex]

theorem active_unique (st : Store) (a : TimeLog)
    (hcount : activeCount st ≤ 1) (h : getActiveTimeLog st = some a) :
    ∀ r ∈ st.time_logs, r.end_time = none → r = a := by
  have hm := getActiveTimeLog_mem st a h
  have hafil : a ∈ st.time_logs.filter (fun r => r.end_time = none) :=
    List.mem_filter.mpr ⟨hm.1, by simp [hm.2]⟩
  have hlen : (st.time_logs.filter (fun r => r.end_time = none)).length = 1 := by
    have h1 : 1 ≤ (st.time_logs.filter (fun r => r.end_time = none)).length :=
      List.length_pos.mpr (List.ne_nil_of_mem hafil)
    have h2 : (st.time_logs.filter (fun r => r.end_time = none)).length ≤ 1 := hcount
    omega
  obtain ⟨b, hb⟩ := List.length_eq_one.mp hlen
  have hab : a = b := by
    have := hafil
    rw [hb] at this
    simpa using this
  intro r hr hre
  have hrfil : r ∈ st.time_logs.filter (fun r => r.end_time = none) :=
    List.mem_filter.mpr ⟨hr, by simp [hre]⟩
  rw [hb] at hrfil
  simp at hrfil
  rw [hrfil, hab]

theorem filter_close_eq_nil (l : List TimeLog) (aid : Nat) (upd : TimeLog → TimeLog)
    (hclosed : ∀ r, (upd r).end_time ≠ none)
    (hall : ∀ r ∈ l, r.end_time = none → r.id = aid) :
    (l.map (fun r => if r.id = aid then upd r else r)).filter
      (fun r => r.end_time = none) = [] := by
  rw [List.filter_eq_nil_iff]
  intro x hx
  obtain ⟨r, hr, hrx⟩ := List.mem_map.mp hx
  by_cases hid : r.id = aid
  · rw [if_pos hid] at hrx
    simp only [decide_eq_true_eq]
    rw [← hrx]
    exact hclosed r
  · rw [if_neg hid] at hrx
    simp only [decide_eq_true_eq]
    rw [← hrx]
    intro hre
    exact hid (hall r hr hre)

theorem runOp_preserves (st : Store) (op : StoreOp)
    (hop : opCreatesClosed op = true) (h : activeCount st ≤ 1) :
    activeCount (runOp st op) ≤ 1 := by
  cases op with
  | start now d p =>
      cases hA : getActiveTimeLog st with
      | some a => simpa [runOp, startTimer, hA] using h
      | none =>
          have hnil := (getActiveTimeLog_none_iff st).mp hA
          simp only [runOp, startTimer, hA]
          rw [createTimeLog_fst]
          simp only [activeCount, List.filter_append, hnil]
          simp [newLogRow]
  | stop now d =>
      cases hA : getActiveTimeLog st with
      | none => simpa [runOp, stopTimer, hA] using h
      | some a =>
          simp only [runOp, stopTimer, hA, updateTimeLog, hasUpdates]
          rw [if_pos (by simp)]
          by_cases hex : (getTimeLogById st a.id).isSome = true
          · rw [if_pos hex]
            simp only [activeCount]
            refine le_trans (length_filter_map_le _ _ ?_ _) h
            intro r hfr
            by_cases hid : r.id = a.id
            · rw [if_pos hid] at hfr
              simp [applyUpdates] at hfr
            · rwa [if_neg hid] at hfr
          · rw [if_neg hex]
            exact h
  | create now inp =>
      simp only [runOp]
      rw [createTimeLog_fst]
      simp only [activeCount, List.filter_append]
      have : (newLogRow st now inp).end_time ≠ none := by
        simp only [opCreatesClosed] at hop
        simp [newLogRow, Option.isSome_iff_exists.mp hop]
        obtain ⟨e, he⟩ := Option.isSome_iff_exists.mp hop
        simp [he]
      simp only [activeCount] at h
      simp [this]
      omega

theorem runOps_preserves (ops : List StoreOp) (st : Store)
    (hops : ∀ op ∈ ops, opCreatesClosed op = true) (h : activeCount st ≤ 1) :
    activeCount (runOps st ops) ≤ 1 := by
  induction ops generalizing st with
  | nil => exact h
  | cons op rest ih =>
      exact ih (runOp st op)
        (fun x hx => hops x (List.mem_cons_of_mem op hx))
        (runOp_preserves st op (hops op (List.mem_cons_self op rest)) h)

theorem jsOr_empty (x : String) : MainProcessTimer.jsOr x "" = x := by
  by_cases h : x = "" <;> simp [MainProcessTimer.jsOr, h]

end Lemmas

/-- C1 (counterexample): `createTimeLog` performs no active-session check.
Starting from an empty store, a `createTimeLog` call with an absent `endTime`
leaves an open row, and a second such call succeeds rather than failing with
`ActiveSessionExistsError`, leaving TWO rows with an absent `endTime`. -/
theorem createOpen_violates_single_active :
    (TimeLogService.getActiveTimeLog
        (runOps ⟨[], [], 1, 1⟩
          [StoreOp.create 1000 ⟨1000, none, none, "a", none⟩])).isSome = true ∧
    activeCount
      (runOps ⟨[], [], 1, 1⟩
        [StoreOp.create 1000 ⟨1000, none, none, "a", none⟩,
         StoreOp.create 2000 ⟨2000, none, none, "b", none⟩]) = 2 := by
  decide

/-- C1 (amended): for every sequence of `startTimer` / `stopTimer` /
`createTimeLog` operations in which every `createTimeLog` call carries a
present `endTime`, a store with at most one open row keeps at most one open
row at every point; and `startTimer` fails with the active-session error
whenever a session with an absent `endTime` already exists.  (`createTimeLog`
itself performs no such check, so a `createTimeLog` call with an absent
`endTime` can produce a second open row.) -/
theorem single_active_invariant_amended (st : Store) (ops : List StoreOp)
    (now : Int) (d : String) (p : Option Nat)
    (hops : ∀ op ∈ ops, opCreatesClosed op = true)
    (hst : activeCount st ≤ 1) :
    activeCount (runOps st ops) ≤ 1 ∧
      ((TimeLogService.getActiveTimeLog st).isSome = true →
        TimeLogService.startTimer st now d p =
          .error "Timer is already running. Stop the current timer before starting a new one.") :=
  ⟨runOps_preserves ops st hops hst,
   fun hact => startTimer_fails_of_active st now d p hact⟩

/-- C1 witness: the amended theorem applied to a store that begins with no
open session and a concrete operation sequence, and to a store holding one
open row for the start-rejection part. -/
theorem single_active_invariant_amended_witness :
    activeCount
      (runOps ⟨[], [], 1, 1⟩
        [StoreOp.start 5 "x" none, StoreOp.stop 9 none,
         StoreOp.create 20 ⟨30, some 40, some 0, "c", none⟩,
         StoreOp.start 50 "y" none]) ≤ 1 ∧
    TimeLogService.startTimer ⟨[⟨1, 0, none, none, "w", none, 0, 0⟩], [], 2, 1⟩ 7 "n" none =
      .error "Timer is already running. Stop the current timer before starting a new one." :=
  ⟨(single_active_invariant_amended ⟨[], [], 1, 1⟩
      [StoreOp.start 5 "x" none, StoreOp.stop 9 none,
       StoreOp.create 20 ⟨30, some 40, some 0, "c", none⟩,
       StoreOp.start 50 "y" none]
      7 "n" none (by decide) (by decide)).1,
   (single_active_invariant_amended
      ⟨[⟨1, 0, none, none, "w", none, 0, 0⟩], [], 2, 1⟩ []
      7 "n" none (by decide) (by decide)).2 (by decide)⟩

/-- C2 (counterexample): with a session already running (started as "writing
spec"), a second engine-level `startTimer("other")` does not fail with
`ActiveSessionExistsError`: it succeeds, and the store's single active session
afterwards has description "other", not "writing spec" — the engine implicitly
stopped the running session to honor the new start. -/
theorem second_start_counterexample :
    ((MainProcessTimer.mainStartTimer MainProcessTimer.initialTimerState
          ⟨[], [], 1, 1⟩ 1000 (some "writing spec") none).bind
        (fun x => MainProcessTimer.mainStartTimer x.1 x.2.1 5000 (some "other") none)).toOption.map
      (fun x => ((TimeLogService.getActiveTimeLog x.2.1).map TimeLog.description,
        activeCount x.2.1)) = some (some "other", 1) := by
  decide

/-- C2 (amended): when the engine's cached state is `Running` (with a cached
current session) and the store holds an active session, a second engine-level
`startTimer` call does NOT reject: it first stops the active session (closing
it at the new call's instant) and then starts a new one, so afterwards the
store again holds exactly one active session whose description is the one
given to the SECOND start.  The store-level `TimeLogService.startTimer` does
fail with the active-session error whenever an active session exists. -/
theorem second_start_autostops (e : TimerState) (st : Store) (now : Int)
    (d : Option String) (p : Option (Option Nat)) (a : TimeLog)
    (now' : Int) (d' : String) (p' : Option Nat)
    (hrun : e.isRunning = true) (hcur : e.currentSession.isSome = true)
    (hact : TimeLogService.getActiveTimeLog st = some a)
    (hcount : activeCount st ≤ 1) (hwf : StoreWF st) :
    (∃ e2 st2 s ev,
      MainProcessTimer.mainStartTimer e st now d p = .ok (e2, st2, s, ev) ∧
      s.end_time = none ∧ s.description = d.getD "" ∧
      TimeLogService.getActiveTimeLog st2 = some s ∧ activeCount st2 = 1 ∧
      ∀ r ∈ st2.time_logs, r.id = a.id → r.end_time = some now) ∧
    TimeLogService.startTimer st now' d' p' =
      .error "Timer is already running. Stop the current timer before starting a new one." := by
  refine ⟨?_, startTimer_fails_of_active st now' d' p' (by simp [hact])⟩
  obtain ⟨c, hc⟩ := Option.isSome_iff_exists.mp hcur
  obtain ⟨stA, hstop, htl, hproj, hnli, hnpi⟩ :=
    stopTimer_ok st now (some e.description) a hact
  have hmemA := (getActiveTimeLog_mem st a hact).1
  have hfindA : (TimeLogService.getTimeLogById stA a.id).isSome = true := by
    rw [TimeLogService.getTimeLogById, htl, List.find?_isSome]
    refine ⟨_, List.mem_map_of_mem _ hmemA, ?_⟩
    simp [TimeLogService.applyUpdates]
  obtain ⟨sA, hsA⟩ := Option.isSome_iff_exists.mp hfindA
  set e1 : TimerState :=
    { e with isRunning := false, currentSession := none,
             elapsedTime := 0, description := "" } with he1
  have hms : MainProcessTimer.mainStopTimer e st now none =
      Except.ok (e1, stA, sA, [e1]) := by
    simp only [MainProcessTimer.mainStopTimer, hc, Option.getD_none]
    rw [hstop, hsA]
    rfl
  have hnone : TimeLogService.getActiveTimeLog stA = none := by
    rw [getActiveTimeLog_none_iff, htl]
    refine filter_close_eq_nil _ a.id _ (fun r => by simp [TimeLogService.applyUpdates]) ?_
    intro r hr hre
    rw [active_unique st a hcount hact r hr hre]
  have hwfA : StoreWF stA := by
    intro r hr
    rw [htl] at hr
    obtain ⟨x, hx, rfl⟩ := List.mem_map.mp hr
    have hxlt := hwf x hx
    rw [hnli]
    by_cases hid : x.id = a.id
    · rw [if_pos hid]
      exact hxlt
    · rw [if_neg hid]
      exact hxlt
  have hcond : (e.isRunning && e.currentSession.isSome) = true := by
    rw [hrun, hcur]
    rfl
  simp only [MainProcessTimer.mainStartTimer, hcond, if_true, hms,
    TimeLogService.startTimer, hnone]
  refine ⟨_, _, _, _, rfl, ?_, ?_, ?_, ?_, ?_⟩
  · -- the new session is open
    rw [createTimeLog_snd _ _ _ hwfA]
    rfl
  · -- its description is the one given to the second start
    rw [createTimeLog_snd _ _ _ hwfA]
    show MainProcessTimer.jsOr (MainProcessTimer.jsOr (d.getD "") "") "" = d.getD ""
    rw [jsOr_empty, jsOr_empty]
  · -- it is the unique active session of the new store
    rw [createTimeLog_fst, createTimeLog_snd _ _ _ hwfA]
    show TimeLogService.pickLatest none
        ((stA.time_logs ++ [newLogRow stA now _]).filter (fun r => r.end_time = none)) =
      some (newLogRow stA now _)
    rw [List.filter_append, (getActiveTimeLog_none_iff stA).mp hnone]
    simp [TimeLogService.pickLatest, newLogRow]
  · rw [createTimeLog_fst]
    show ((stA.time_logs ++ [newLogRow stA now _]).filter (fun r => r.end_time = none)).length = 1
    rw [List.filter_append, (getActiveTimeLog_none_iff stA).mp hnone]
    simp [newLogRow]
  · -- the previously active row is closed at `now`
    rw [createTimeLog_fst]
    intro r hr hrid
    simp only [List.mem_append] at hr
    rcases hr with hr | hr
    · rw [htl] at hr
      obtain ⟨x, hx, rfl⟩ := List.mem_map.mp hr
      by_cases hid : x.id = a.id
      · rw [if_pos hid]
        simp [TimeLogService.applyUpdates]
      · rw [if_neg hid] at hrid ⊢
        exact absurd hrid hid
    · simp only [List.mem_singleton] at hr
      subst hr
      have : a.id < st.nextLogId := hwf a hmemA
      rw [show (newLogRow stA now _).id = stA.nextLogId from rfl, hnli] at hrid
      omega

/-- C2 witness: the amended theorem applied to an engine running a session
described "writing spec" and a second start described "other". -/
theorem second_start_autostops_witness :
    (∃ e2 st2 s ev,
      MainProcessTimer.mainStartTimer
        ⟨true, some ⟨1, 1000, none, none, "writing spec", none, 1000, 1000⟩,
          0, "writing spec", none⟩
        ⟨[⟨1, 1000, none, none, "writing spec", none, 1000, 1000⟩], [], 2, 1⟩
        5000 (some "other") none = .ok (e2, st2, s, ev) ∧
      s.end_time = none ∧ s.description = (some "other" : Option String).getD "" ∧
      TimeLogService.getActiveTimeLog st2 = some s ∧ activeCount st2 = 1 ∧
      ∀ r ∈ st2.time_logs,
        r.id = (⟨1, 1000, none, none, "writing spec", none, 1000, 1000⟩ : TimeLog).id →
        r.end_time = some 5000) ∧
    TimeLogService.startTimer
      ⟨[⟨1, 1000, none, none, "writing spec", none, 1000, 1000⟩], [], 2, 1⟩
      3000 "x" none =
      .error "Timer is already running. Stop the current timer before starting a new one." :=
  second_start_autostops
    ⟨true, some ⟨1, 1000, none, none, "writing spec", none, 1000, 1000⟩,
      0, "writing spec", none⟩
    ⟨[⟨1, 1000, none, none, "writing spec", none, 1000, 1000⟩], [], 2, 1⟩
    5000 (some "other") none
    ⟨1, 1000, none, none, "writing spec", none, 1000, 1000⟩
    3000 "x" none
    (by decide) (by decide) (by decide) (by decide)
    (by simp only [StoreWF]; decide)

/-- C3 (code_bug evidence): with a closed session `[1000, 2000)` stored,
`createTimeLog` of the intersecting closed interval `[1200, 1500)` succeeds
and persists a second overlapping closed row, and `updateTimeLog` moves a
closed session onto an interval intersecting another without failing — no
caller ever invokes `validateTimeLog`, the service's own overlap check, which
rejects exactly these intervals with the overlap error. -/
theorem overlap_never_checked :
    ((TimeLogService.createTimeLog
        ⟨[⟨1, 1000, some 2000, some 1, "x", none, 500, 500⟩], [], 2, 1⟩ 5000
        ⟨1200, some 1500, some 0, "y", none⟩).1.time_logs.map
      (fun r => (r.start_time, r.end_time)) =
        [(1000, some 2000), (1200, some 1500)]) ∧
    intervalsIntersect 1000 2000 1200 1500 = true ∧
    ((TimeLogService.updateTimeLog
        ⟨[⟨1, 1000, some 2000, some 1, "x", none, 500, 500⟩,
          ⟨2, 3000, some 4000, some 1, "z", none, 500, 500⟩], [], 3, 1⟩ 6000 2
        { start_time := some 1500, end_time := some (some 2500) }).2.map
      (fun r => (r.start_time, r.end_time)) = some (1500, some 2500)) ∧
    TimeLogService.validateTimeLog
        ⟨[⟨1, 1000, some 2000, some 1, "x", none, 500, 500⟩], [], 2, 1⟩
        1200 (some 1500) none =
      .error "Time log overlaps with existing entries" ∧
    TimeLogService.validateTimeLog
        ⟨[⟨1, 1000, some 2000, some 1, "x", none, 500, 500⟩,
          ⟨2, 3000, some 4000, some 1, "z", none, 500, 500⟩], [], 3, 1⟩
        1500 (some 2500) (some 2) =
      .error "Time log overlaps with existing entries" :=
  ⟨by decide, by decide, by decide, by rfl, by rfl⟩

/-- C4: launch-time recovery — when the store holds an open row the engine
initializes to `Running` over exactly that row with
`elapsedTime = floor((now - startTime) / 1000)` and the store is untouched;
when no open row exists the engine stays in its `Idle` initial state. -/
theorem recovery_initializes_running (st : Store) (now : Int) :
    (∀ a, TimeLogService.getActiveTimeLog st = some a →
      MainProcessTimer.mkEngine st now =
        (⟨true, some a, (now - a.start_time).fdiv 1000, a.description, a.project_id⟩,
         st,
         [⟨true, some a, (now - a.start_time).fdiv 1000, a.description, a.project_id⟩])) ∧
    (TimeLogService.getActiveTimeLog st = none →
      MainProcessTimer.mkEngine st now = (MainProcessTimer.initialTimerState, st, [])) := by
  constructor
  · intro a ha
    simp [MainProcessTimer.mkEngine, MainProcessTimer.restoreActiveSession, ha,
      MainProcessTimer.getState]
  · intro ha
    simp [MainProcessTimer.mkEngine, MainProcessTimer.restoreActiveSession, ha]

/-- C4 witness: recovery over a store holding one open row started at 2000ms,
at launch instant 10500ms. -/
theorem recovery_initializes_running_witness :
    MainProcessTimer.mkEngine
        ⟨[⟨1, 2000, none, none, "w", some 3, 2000, 2000⟩], [], 2, 1⟩ 10500 =
      (⟨true, some ⟨1, 2000, none, none, "w", some 3, 2000, 2000⟩,
         ((10500 : Int) - 2000).fdiv 1000, "w", some 3⟩,
       ⟨[⟨1, 2000, none, none, "w", some 3, 2000, 2000⟩], [], 2, 1⟩,
       [⟨true, some ⟨1, 2000, none, none, "w", some 3, 2000, 2000⟩,
          ((10500 : Int) - 2000).fdiv 1000, "w", some 3⟩]) :=
  (recovery_initializes_running
      ⟨[⟨1, 2000, none, none, "w", some 3, 2000, 2000⟩], [], 2, 1⟩ 10500).1
    ⟨1, 2000, none, none, "w", some 3, 2000, 2000⟩ (by decide)

/-- C5: `startTimer` at `t1` followed by `stopTimer` at `t2` produces a closed
session whose persisted `duration` equals `floor((t2 - t1) / 1000)` — the
end-to-start difference in whole seconds — with `end_time` and `duration`
written by the same single `updateTimeLog` call, and the returned session is
exactly the persisted row. -/
theorem start_stop_round_trip (st : Store) (t1 t2 : Int) (d : String)
    (p : Option Nat) (d2 : Option String)
    (hwf : StoreWF st) (hA : TimeLogService.getActiveTimeLog st = none)
    (hlt : t1 < t2) :
    ∃ st1 s st2 s2,
      TimeLogService.startTimer st t1 d p = .ok (st1, s) ∧
      TimeLogService.stopTimer st1 t2 d2 = .ok (st2, some s2) ∧
      s2.start_time = t1 ∧ s2.end_time = some t2 ∧
      s2.duration = some ((t2 - t1).fdiv 1000) ∧
      TimeLogService.getTimeLogById st2 s.id = some s2 := by
  have hstart : TimeLogService.startTimer st t1 d p =
      .ok (TimeLogService.createTimeLog st t1 ⟨t1, none, none, d, p⟩) := by
    simp [TimeLogService.startTimer, hA]
  have hfst := createTimeLog_fst st t1 ⟨t1, none, none, d, p⟩
  have hsnd := createTimeLog_snd st t1 ⟨t1, none, none, d, p⟩ hwf
  have hact1 : TimeLogService.getActiveTimeLog
      (TimeLogService.createTimeLog st t1 ⟨t1, none, none, d, p⟩).1 =
      some (newLogRow st t1 ⟨t1, none, none, d, p⟩) := by
    rw [hfst]
    show TimeLogService.pickLatest none
        ((st.time_logs ++ [newLogRow st t1 ⟨t1, none, none, d, p⟩]).filter
          (fun r => r.end_time = none)) =
      some (newLogRow st t1 ⟨t1, none, none, d, p⟩)
    rw [List.filter_append, (getActiveTimeLog_none_iff st).mp hA]
    simp [TimeLogService.pickLatest, newLogRow]
  obtain ⟨st2, hstop2, htl2, hproj2, hnli2, hnpi2⟩ :=
    stopTimer_ok _ t2 d2 (newLogRow st t1 ⟨t1, none, none, d, p⟩) hact1
  have hfind2 : TimeLogService.getTimeLogById st2
      (newLogRow st t1 ⟨t1, none, none, d, p⟩).id =
      some (TimeLogService.applyUpdates
        { end_time := some (some t2),
          duration := some (some
            ((t2 - (newLogRow st t1 ⟨t1, none, none, d, p⟩).start_time).fdiv 1000)),
          description := d2 } t2 (newLogRow st t1 ⟨t1, none, none, d, p⟩)) := by
    rw [TimeLogService.getTimeLogById, htl2, hfst]
    show ((st.time_logs ++ [newLogRow st t1 ⟨t1, none, none, d, p⟩]).map (fun r =>
        if r.id = (newLogRow st t1 ⟨t1, none, none, d, p⟩).id then
          TimeLogService.applyUpdates
            { end_time := some (some t2),
              duration := some (some
                ((t2 - (newLogRow st t1 ⟨t1, none, none, d, p⟩).start_time).fdiv 1000)),
              description := d2 } t2 r
        else r)).find?
        (fun r => r.id = (newLogRow st t1 ⟨t1, none, none, d, p⟩).id) = _
    rw [List.map_append]
    have hmapid : st.time_logs.map (fun r =>
        if r.id = (newLogRow st t1 ⟨t1, none, none, d, p⟩).id then
          TimeLogService.applyUpdates
            { end_time := some (some t2),
              duration := some (some
                ((t2 - (newLogRow st t1 ⟨t1, none, none, d, p⟩).start_time).fdiv 1000)),
              description := d2 } t2 r
        else r) = st.time_logs := by
      have hpt : ∀ r ∈ st.time_logs, (if r.id = (newLogRow st t1 ⟨t1, none, none, d, p⟩).id then
          TimeLogService.applyUpdates
            { end_time := some (some t2),
              duration := some (some
                ((t2 - (newLogRow st t1 ⟨t1, none, none, d, p⟩).start_time).fdiv 1000)),
              description := d2 } t2 r
        else r) = id r := by
        intro r hr
        have hlt' := hwf r hr
        have hne : ¬(r.id = (newLogRow st t1 ⟨t1, none, none, d, p⟩).id) := by
          simp only [newLogRow]
          omega
        rw [if_neg hne]
        rfl
      rw [List.map_congr_left hpt, List.map_id]
    rw [hmapid]
    simp only [List.map_cons, List.map_nil, if_pos rfl]
    exact find?_append_fresh st.time_logs
      (TimeLogService.applyUpdates
        { end_time := some (some t2),
          duration := some (some
            ((t2 - (newLogRow st t1 ⟨t1, none, none, d, p⟩).start_time).fdiv 1000)),
          description := d2 } t2 (newLogRow st t1 ⟨t1, none, none, d, p⟩))
      (fun r hr => by
        have hlt' := hwf r hr
        simp only [TimeLogService.applyUpdates, newLogRow]
        omega)
  refine ⟨(TimeLogService.createTimeLog st t1 ⟨t1, none, none, d, p⟩).1,
    (TimeLogService.createTimeLog st t1 ⟨t1, none, none, d, p⟩).2,
    st2,
    TimeLogService.applyUpdates
      { end_time := some (some t2),
        duration := some (some
          ((t2 - (newLogRow st t1 ⟨t1, none, none, d, p⟩).start_time).fdiv 1000)),
        description := d2 } t2 (newLogRow st t1 ⟨t1, none, none, d, p⟩),
    hstart, ?_, ?_, ?_, ?_, ?_⟩
  · rw [hstop2, hfind2]
  · simp [TimeLogService.applyUpdates, newLogRow]
  · simp [TimeLogService.applyUpdates, newLogRow]
  · simp [TimeLogService.applyUpdates, newLogRow]
  · rw [hsnd]
    exact hfind2

/-- C5 witness: start at 1000ms, stop at 64600ms — the closed session has
`duration = 63` seconds. -/
theorem start_stop_round_trip_witness :
    ∃ st1 s st2 s2,
      TimeLogService.startTimer ⟨[], [], 1, 1⟩ 1000 "w" none = .ok (st1, s) ∧
      TimeLogService.stopTimer st1 64600 none = .ok (st2, some s2) ∧
      s2.start_time = 1000 ∧ s2.end_time = some 64600 ∧
      s2.duration = some (((64600 : Int) - 1000).fdiv 1000) ∧
      TimeLogService.getTimeLogById st2 s.id = some s2 :=
  start_stop_round_trip ⟨[], [], 1, 1⟩ 1000 64600 "w" none none
    (by simp only [StoreWF]; decide) (by decide) (by decide)

/-- C6 (code_bug evidence): with an active session started at t = 5000ms,
`stopTimer` at now = 5000 closes it with `end_time = start_time` and
`duration = 0`, and at now = 4000 with `duration = -1` — it neither fails
with `InvalidRangeError` nor clamps the end to start + 1s, so a closed
session with `startTime < endTime` violated is persisted. -/
theorem stop_accepts_nonpositive_range :
    ((TimeLogService.stopTimer
        ⟨[⟨1, 5000, none, none, "w", none, 5000, 5000⟩], [], 2, 1⟩ 5000
        none).toOption.bind
      (fun x => x.2.map (fun s => (s.start_time, s.end_time, s.duration))) =
      some (5000, some 5000, some 0)) ∧
    ((TimeLogService.stopTimer
        ⟨[⟨1, 5000, none, none, "w", none, 5000, 5000⟩], [], 2, 1⟩ 4000
        none).toOption.bind
      (fun x => x.2.map (fun s => (s.start_time, s.end_time, s.duration))) =
      some (5000, some 4000, some (-1))) := by
  decide

theorem getLast?_append_singleton (l : List TimerState) (x : TimerState) :
    (l ++ [x]).getLast? = some x := by
  induction l with
  | nil => rfl
  | cons y ys ih =>
      cases ys with
      | nil => rfl
      | cons z zs =>
          show (y :: z :: (zs ++ [x])).getLast? = some x
          rw [List.getLast?_cons_cons]
          exact ih

theorem mainStart_last_event (e : TimerState) (st : Store) (now : Int)
    (d : Option String) (p : Option (Option Nat)) (e2 : TimerState) (st2 : Store)
    (s : TimeLog) (ev : List TimerState)
    (h : MainProcessTimer.mainStartTimer e st now d p = .ok (e2, st2, s, ev)) :
    ev.getLast? = some e2 := by
  by_cases hcond : (e.isRunning && e.currentSession.isSome) = true
  · simp only [MainProcessTimer.mainStartTimer, hcond, if_true] at h
    cases hms : MainProcessTimer.mainStopTimer e st now none with
    | error m => rw [hms] at h; simp at h
    | ok q =>
        obtain ⟨e1, st1, s1, ev1⟩ := q
        rw [hms] at h
        dsimp only [] at h
        cases hth : TimeLogService.startTimer st1 now
            (MainProcessTimer.jsOr
              (MainProcessTimer.jsOr (d.getD "") e1.description) "")
            (p.getD e1.projectId) with
        | error m => rw [hth] at h; simp at h
        | ok q2 =>
            obtain ⟨st2', s'⟩ := q2
            rw [hth] at h
            simp only [Except.ok.injEq, Prod.mk.injEq] at h
            obtain ⟨he2, -, -, hev⟩ := h
            rw [← hev, ← he2]
            exact getLast?_append_singleton _ _
  · rw [Bool.not_eq_true] at hcond
    simp only [MainProcessTimer.mainStartTimer, hcond, Bool.false_eq_true,
      if_false] at h
    try dsimp only [] at h
    cases hth : TimeLogService.startTimer st now
        (MainProcessTimer.jsOr
          (MainProcessTimer.jsOr (d.getD "") e.description) "")
        (p.getD e.projectId) with
    | error m => rw [hth] at h; simp at h
    | ok q2 =>
        obtain ⟨st2', s'⟩ := q2
        rw [hth] at h
        simp only [Except.ok.injEq, Prod.mk.injEq] at h
        obtain ⟨he2, -, -, hev⟩ := h
        rw [← hev, ← he2]
        exact getLast?_append_singleton _ _

theorem mainStop_last_event (f : TimerState) (stf : Store) (nowf : Int)
    (df : Option String) (f2 : TimerState) (stf2 : Store)
    (sf : TimeLog) (evf : List TimerState)
    (h : MainProcessTimer.mainStopTimer f stf nowf df = .ok (f2, stf2, sf, evf)) :
    evf.getLast? = some f2 := by
  cases hc : f.currentSession with
  | none => simp only [MainProcessTimer.mainStopTimer, hc] at h; simp at h
  | some c =>
      simp only [MainProcessTimer.mainStopTimer, hc] at h
      cases hth : TimeLogService.stopTimer stf nowf (some (df.getD f.description)) with
      | error m => rw [hth] at h; simp at h
      | ok q =>
          obtain ⟨st', opt⟩ := q
          rw [hth] at h
          cases opt with
          | none => simp at h
          | some s' =>
              simp only [Except.ok.injEq, Prod.mk.injEq] at h
              obtain ⟨hf2, -, -, hev⟩ := h
              rw [← hev, ← hf2]
              rfl

/-- C7: after a successful engine `start` and a successful engine `stop`, the
last emitted `state-changed` notification carries exactly the engine's new
`getState()` snapshot; a mirror processing a forwarded notification renders
precisely that snapshot's fields (so any two mirrors agree), and a freshly
attached tray window is sent the current `getState()` snapshot — rendering
`Running` whenever the engine is running — rather than keeping its `Idle`
`useState` default. -/
theorem mirror_consistency (e f : TimerState) (m1 m2 : TrayViewState)
    (st stf st2 stf2 : Store) (now nowf : Int) (d df : Option String)
    (p : Option (Option Nat)) (e2 f2 : TimerState) (s sf : TimeLog)
    (ev evf : List TimerState)
    (hstart : MainProcessTimer.mainStartTimer e st now d p = .ok (e2, st2, s, ev))
    (hstop : MainProcessTimer.mainStopTimer f stf nowf df = .ok (f2, stf2, sf, evf)) :
    TrayMirror.trayReceiveUpdate m1
        (TrayMirror.stateChangedPayload (MainProcessTimer.getState e2)) =
      TrayMirror.viewOf (MainProcessTimer.getState e2) ∧
    TrayMirror.trayReceiveUpdate m1
        (TrayMirror.stateChangedPayload (MainProcessTimer.getState e2)) =
      TrayMirror.trayReceiveUpdate m2
        (TrayMirror.stateChangedPayload (MainProcessTimer.getState e2)) ∧
    TrayMirror.trayReceiveUpdate TrayMirror.trayInitialView
        (TrayMirror.trayAttachPayload e2) = TrayMirror.viewOf e2 ∧
    (e2.isRunning = true →
      (TrayMirror.trayReceiveUpdate TrayMirror.trayInitialView
        (TrayMirror.trayAttachPayload e2)).isRunning = true) ∧
    ev.getLast? = some (MainProcessTimer.getState e2) ∧
    evf.getLast? = some (MainProcessTimer.getState f2) :=
  ⟨rfl, rfl, rfl, fun hr => hr,
   mainStart_last_event e st now d p e2 st2 s ev hstart,
   mainStop_last_event f stf nowf df f2 stf2 sf evf hstop⟩

/-- C7 witness: the theorem applied to a concrete start from an empty store
and a concrete stop of the resulting running engine. -/
theorem mirror_consistency_witness :
    TrayMirror.trayReceiveUpdate TrayMirror.trayInitialView
        (TrayMirror.stateChangedPayload (MainProcessTimer.getState
          ⟨true, some ⟨1, 1000, none, none, "w", none, 1000, 1000⟩, 0, "w", none⟩)) =
      TrayMirror.viewOf (MainProcessTimer.getState
        ⟨true, some ⟨1, 1000, none, none, "w", none, 1000, 1000⟩, 0, "w", none⟩) ∧
    TrayMirror.trayReceiveUpdate TrayMirror.trayInitialView
        (TrayMirror.stateChangedPayload (MainProcessTimer.getState
          ⟨true, some ⟨1, 1000, none, none, "w", none, 1000, 1000⟩, 0, "w", none⟩)) =
      TrayMirror.trayReceiveUpdate ⟨true, 77, "zzz"⟩
        (TrayMirror.stateChangedPayload (MainProcessTimer.getState
          ⟨true, some ⟨1, 1000, none, none, "w", none, 1000, 1000⟩, 0, "w", none⟩)) ∧
    TrayMirror.trayReceiveUpdate TrayMirror.trayInitialView
        (TrayMirror.trayAttachPayload
          ⟨true, some ⟨1, 1000, none, none, "w", none, 1000, 1000⟩, 0, "w", none⟩) =
      TrayMirror.viewOf
        ⟨true, some ⟨1, 1000, none, none, "w", none, 1000, 1000⟩, 0, "w", none⟩ ∧
    ((⟨true, some ⟨1, 1000, none, none, "w", none, 1000, 1000⟩, 0, "w", none⟩ :
        TimerState).isRunning = true →
      (TrayMirror.trayReceiveUpdate TrayMirror.trayInitialView
        (TrayMirror.trayAttachPayload
          ⟨true, some ⟨1, 1000, none, none, "w", none, 1000, 1000⟩, 0, "w", none⟩)).isRunning = true) ∧
    ([(⟨true, some ⟨1, 1000, none, none, "w", none, 1000, 1000⟩, 0, "w", none⟩ :
        TimerState)].getLast? = some (MainProcessTimer.getState
          ⟨true, some ⟨1, 1000, none, none, "w", none, 1000, 1000⟩, 0, "w", none⟩)) ∧
    ([(⟨false, none, 0, "", none⟩ : TimerState)].getLast? =
      some (MainProcessTimer.getState ⟨false, none, 0, "", none⟩)) :=
  mirror_consistency
    MainProcessTimer.initialTimerState
    ⟨true, some ⟨1, 1000, none, none, "w", none, 1000, 1000⟩, 0, "w", none⟩
    TrayMirror.trayInitialView ⟨true, 77, "zzz"⟩
    ⟨[], [], 1, 1⟩
    ⟨[⟨1, 1000, none, none, "w", none, 1000, 1000⟩], [], 2, 1⟩
    ⟨[⟨1, 1000, none, none, "w", none, 1000, 1000⟩], [], 2, 1⟩
    ⟨[⟨1, 1000, some 5000, some 4, "w", none, 1000, 5000⟩], [], 2, 1⟩
    1000 5000 (some "w") none none
    ⟨true, some ⟨1, 1000, none, none, "w", none, 1000, 1000⟩, 0, "w", none⟩
    ⟨false, none, 0, "", none⟩
    ⟨1, 1000, none, none, "w", none, 1000, 1000⟩
    ⟨1, 1000, some 5000, some 4, "w", none, 1000, 5000⟩
    [⟨true, some ⟨1, 1000, none, none, "w", none, 1000, 1000⟩, 0, "w", none⟩]
    [⟨false, none, 0, "", none⟩]
    (by rfl) (by rfl)

/-- C8: recovery is idempotent — re-running `restoreActiveSession` against the
same store at the same instant leaves the engine state unchanged, and
recovery never writes to the store. -/
theorem recovery_idempotent (st : Store) (now : Int) (e : TimerState) :
    MainProcessTimer.getState
        (MainProcessTimer.restoreActiveSession
          (MainProcessTimer.restoreActiveSession e st now).1 st now).1 =
      MainProcessTimer.getState
        (MainProcessTimer.restoreActiveSession e st now).1 ∧
    (MainProcessTimer.restoreActiveSession e st now).2.1 = st := by
  cases h : TimeLogService.getActiveTimeLog st with
  | some a =>
      simp [MainProcessTimer.restoreActiveSession, MainProcessTimer.getState, h]
  | none =>
      simp [MainProcessTimer.restoreActiveSession, MainProcessTimer.getState, h]

/-- C9: `deleteProject` throws and removes nothing when any time log
references the project, and removes exactly the project's row (leaving the
time logs untouched) when the referencing count is zero. -/
theorem delete_project_guarded (st : Store) (id : Nat) :
    (ProjectService.getTimeLogsCountForProject st id > 0 →
      ProjectService.deleteProject st id =
        .error "Cannot delete project: time log entries are using this project") ∧
    (ProjectService.getTimeLogsCountForProject st id = 0 →
      ProjectService.deleteProject st id =
        .ok ({ st with projects := st.projects.filter (fun pr => pr.id ≠ id) },
             st.projects.any (fun pr => pr.id = id))) := by
  constructor
  · intro h
    simp only [ProjectService.deleteProject]
    rw [if_pos h]
  · intro h
    simp only [ProjectService.deleteProject]
    rw [if_neg (by omega)]

/-- C9 witness: deleting project 7 fails while a time log references it and
succeeds on a store with no referencing logs. -/
theorem delete_project_guarded_witness :
    ProjectService.deleteProject
        ⟨[⟨1, 0, some 5, some 0, "", some 7, 0, 0⟩],
         [⟨7, "p", "", "#fff", 0, 0⟩], 2, 8⟩ 7 =
      .error "Cannot delete project: time log entries are using this project" ∧
    ProjectService.deleteProject ⟨[], [⟨7, "p", "", "#fff", 0, 0⟩], 1, 8⟩ 7 =
      .ok (⟨[], [], 1, 8⟩, true) :=
  ⟨(delete_project_guarded
      ⟨[⟨1, 0, some 5, some 0, "", some 7, 0, 0⟩],
       [⟨7, "p", "", "#fff", 0, 0⟩], 2, 8⟩ 7).1 (by decide),
   (delete_project_guarded ⟨[], [⟨7, "p", "", "#fff", 0, 0⟩], 1, 8⟩ 7).2 (by decide)⟩

/-- C10 (frame): `stopTimer` maps every row with the active session's id to a
copy in which only `end_time`, `duration`, `updated_at` and — when a
description argument is supplied — `description` change (`id`, `start_time`,
`project_id`, `created_at` are carried over), leaves every other row exactly
as it was, and touches neither the projects table nor the id counters. -/
theorem stop_frame (st : Store) (now : Int) (d : Option String) (a : TimeLog)
    (h : TimeLogService.getActiveTimeLog st = some a) :
    ∃ st2 res, TimeLogService.stopTimer st now d = .ok (st2, res) ∧
      st2.projects = st.projects ∧ st2.nextLogId = st.nextLogId ∧
      st2.nextProjectId = st.nextProjectId ∧
      st2.time_logs = st.time_logs.map (fun r =>
        if r.id = a.id then
          { r with end_time := some now,
                   duration := some ((now - a.start_time).fdiv 1000),
                   description := d.getD r.description,
                   updated_at := now }
        else r) := by
  obtain ⟨st2, heq, htl, hproj, hnli, hnpi⟩ := stopTimer_ok st now d a h
  refine ⟨st2, _, heq, hproj, hnli, hnpi, ?_⟩
  rw [htl]
  rfl

/-- C10 witness: stopping a store holding one open and one closed row. -/
theorem stop_frame_witness :
    ∃ st2 res,
      TimeLogService.stopTimer
        ⟨[⟨1, 0, some 400, some 0, "old", none, 0, 0⟩,
          ⟨2, 1000, none, none, "cur", some 4, 1000, 1000⟩], [], 3, 5⟩
        7500 (some "edited") = .ok (st2, res) ∧
      st2.projects = [] ∧ st2.nextLogId = 3 ∧ st2.nextProjectId = 5 ∧
      st2.time_logs =
        [⟨1, 0, some 400, some 0, "old", none, 0, 0⟩,
         ⟨2, 1000, none, none, "cur", some 4, 1000, 1000⟩].map (fun r =>
          if r.id = (⟨2, 1000, none, none, "cur", some 4, 1000, 1000⟩ : TimeLog).id then
            { r with end_time := some 7500,
                     duration := some (((7500 : Int) -
                       (⟨2, 1000, none, none, "cur", some 4, 1000, 1000⟩ : TimeLog).start_time).fdiv 1000),
                     description := (some "edited").getD r.description,
                     updated_at := 7500 }
          else r) :=
  stop_frame
    ⟨[⟨1, 0, some 400, some 0, "old", none, 0, 0⟩,
      ⟨2, 1000, none, none, "cur", some 4, 1000, 1000⟩], [], 3, 5⟩
    7500 (some "edited") ⟨2, 1000, none, none, "cur", some 4, 1000, 1000⟩
    (by decide)
